import Mathlib

/-!
# aws-sns-slack

A shallow embedding of `main.go`, the HTTP relay that receives Amazon SNS
callbacks and forwards them to a Slack incoming webhook.

The program is glue around the Go standard library.  The embedding keeps the
control flow of every function of `main.go` and represents the library in two
ways:

* calls whose result depends on the outside world or on a large decoder
  (`json.Unmarshal`, `http.Get`, `http.Post`, the request body's `Read`, the
  process's local zone and the time zone database) are fields of an
  environment `Env` or of the `Request`, so every theorem holds for whatever
  those calls return;
* calls whose output the properties talk about (`json.Marshal` of a
  `SlackMessage`, `Time.Format(time.RFC3339)`, `time.LoadLocation`,
  `fmt.Sprintf`, `http.Error`, `make`) are written out as functions.

Go strings are represented by `String`, that is, by valid Unicode text; a Go
`error` is represented by the text its `Error()` method returns.
-/

namespace SnsSlack

/-- A Go `error`, represented by the text of `Error()`. -/
abbrev GoError := String

/-! ## `time.Time` and RFC 3339 formatting -/

/-- A `*time.Location`: a name and the offset east of UTC, in seconds, that is
in effect at a given instant (seconds since the Unix epoch). -/
structure Location where
  name : String
  lookup : Int → Int

/-- The location `time.UTC`. -/
def UTC : Location := ⟨"UTC", fun _ => 0⟩

/-- A location with one fixed offset, as `time.FixedZone` builds. -/
def FixedZone (name : String) (offset : Int) : Location := ⟨name, fun _ => offset⟩

/-- A `time.Time`: an instant (seconds since the Unix epoch and nanoseconds
within the second) together with the location it is displayed in. -/
structure Time where
  sec : Int
  nsec : Nat
  loc : Location

/-- The zero `time.Time`: January 1, year 1, 00:00:00 UTC. -/
def Time.zero : Time := ⟨-62135596800, 0, UTC⟩

/-- `Time.In`: the same instant, displayed in `loc`. -/
def Time.In (t : Time) (loc : Location) : Time := { t with loc := loc }

/-- `appendInt` of package `time`: the decimal digits of `x`, padded with
zeros on the left to `width` digits, after a minus sign when `x` is negative. -/
def appendInt (x : Int) (width : Nat) : List Char :=
  let ds := Nat.toDigits 10 x.natAbs
  (if x < 0 then ['-'] else []) ++ List.replicate (width - ds.length) '0' ++ ds

/-- Year, month and day of the proleptic Gregorian calendar for a day count
relative to 1970-01-01. -/
def civilFromDays (days : Int) : Int × Int × Int :=
  let z := days + 719468
  let era := z / 146097
  let doe := z - era * 146097
  let yoe := (doe - doe / 1460 + doe / 36524 - doe / 146096) / 365
  let doy := doe - (365 * yoe + yoe / 4 - yoe / 100)
  let mp := (5 * doy + 2) / 153
  let d := doy - (153 * mp + 2) / 5 + 1
  let m := if mp < 10 then mp + 3 else mp - 9
  let y := yoe + era * 400
  (if m ≤ 2 then y + 1 else y, m, d)

/-- The zone suffix of layout element `Z07:00`: `Z` for offset zero, otherwise
sign, hours and minutes of the offset (Go's division truncates toward zero). -/
def formatZone (offset : Int) : List Char :=
  if offset = 0 then ['Z']
  else
    let zone := Int.tdiv offset 60
    let sign := if zone < 0 then '-' else '+'
    let zabs : Int := zone.natAbs
    [sign] ++ appendInt (zabs / 60) 2 ++ [':'] ++ appendInt (zabs % 60) 2

/-- `t.Format(time.RFC3339)`, layout `2006-01-02T15:04:05Z07:00`. -/
def Time.FormatRFC3339 (t : Time) : String :=
  let offset := t.loc.lookup t.sec
  let wall := t.sec + offset
  let ymd := civilFromDays (wall / 86400)
  let r := wall % 86400
  String.mk
    (appendInt ymd.1 4 ++ ['-'] ++ appendInt ymd.2.1 2 ++ ['-'] ++ appendInt ymd.2.2 2
      ++ ['T'] ++ appendInt (r / 3600) 2 ++ [':'] ++ appendInt (r % 3600 / 60) 2
      ++ [':'] ++ appendInt (r % 60) 2 ++ formatZone offset)

/-! ## Configuration and data model -/

/-- The command-line flags of `main.go`, parsed once at start-up. -/
structure Flags where
  httpAddr : String
  slackWebhook : String
  slackChannel : String
  slackUsername : String
  slackIconURL : String
  slackIconEmoji : String

/-- The struct `SNSMessage`: an Amazon SNS notification message. -/
structure SNSMessage where
  Message : String
  MessageId : String
  Signature : String
  SignatureVersion : String
  SigningCertURL : String
  Subject : String
  SubscribeURL : String
  Timestamp : Time
  Token : String
  TopicArn : String
  «Type» : String
  UnsubscribeURL : String

/-- The struct `SlackMessage`: a message sent to the Slack API. -/
structure SlackMessage where
  Channel : String
  Username : String
  IconURL : String
  IconEmoji : String
  Text : String
deriving DecidableEq, Repr

/-- An `*http.Response`, of which only the status code is kept. -/
structure HttpResponse where
  StatusCode : Nat
deriving DecidableEq, Repr

/-- What `main.go` takes from outside: the parsed flags and the results of the
standard-library calls that reach the outside world or decode input.
`Unmarshal js` is the result of `json.Unmarshal(js, s)` on a fresh
`SNSMessage`: the populated struct or the error.  `Local` is the location
`time.Local` of the process, and `loadZone` the lookup of a name in the time
zone database. -/
structure Env where
  flags : Flags
  Unmarshal : List UInt8 → Except GoError SNSMessage
  Local : Location
  loadZone : String → Except GoError Location
  Get : String → Except GoError HttpResponse
  Post : String → String → String → Except GoError HttpResponse

/-- `time.LoadLocation`: the names `""` and `"UTC"` give `time.UTC` and the
name `"Local"` gives `time.Local`, each with a nil error; any other name is
looked up in the time zone database. -/
def Env.LoadLocation (env : Env) (name : String) : Except GoError Location :=
  if name = "" ∨ name = "UTC" then .ok UTC
  else if name = "Local" then .ok env.Local
  else env.loadZone name

/-- An inbound `*http.Request`.  `Body n` is what the first call
`r.Body.Read(p)` with `len(p) = n` delivers: the bytes it stores at the front
of `p`, and the error it returns (if any). -/
structure Request where
  ContentLength : Int
  Body : Nat → List UInt8 × Option GoError

/-- The calls that `handler` makes on the outside world, in order. -/
inductive Event where
  | bodyRead (len : Nat)
  | get (url : String)
  | post (url contentType body : String)
deriving DecidableEq, Repr

/-- The state of an `http.ResponseWriter`: the status code written with
`WriteHeader` (if any) and the body written so far. -/
structure ResponseWriter where
  code : Option Nat
  body : String
deriving DecidableEq, Repr

/-- A response writer on which nothing has been written. -/
def ResponseWriter.fresh : ResponseWriter := ⟨none, ""⟩

/-- The status the server sends: the code written, or 200 when the handler
returned without writing one. -/
def ResponseWriter.status (w : ResponseWriter) : Nat := w.code.getD 200

/-- The constant `http.StatusInternalServerError`. -/
def StatusInternalServerError : Nat := 500

/-- `http.Error(w, error, code)`: writes the status code, then the message
followed by a newline (`fmt.Fprintln`). -/
def httpError (w : ResponseWriter) (error : String) (code : Nat) : ResponseWriter :=
  { code := some (w.code.getD code), body := w.body ++ error ++ "\n" }

/-- How a call of `handler` ends: it returns, leaving `w` behind, or it
panics.  Both carry the calls made until then. -/
inductive Outcome where
  | returned (events : List Event) (w : ResponseWriter)
  | panic (events : List Event)
deriving DecidableEq, Repr

/-- The calls made during the handler run. -/
def Outcome.events : Outcome → List Event
  | .returned evs _ => evs
  | .panic evs => evs

/-- What the SNS caller receives from a handler run that returned: status
and body.  A run that panicked sends no reply. -/
def Outcome.reply : Outcome → Option (Nat × String)
  | .returned _ w => some (w.status, w.body)
  | .panic _ => none

/-- The URLs of the outbound GET requests in a trace. -/
def gets : List Event → List String
  | [] => []
  | .get url :: evs => url :: gets evs
  | _ :: evs => gets evs

/-- The outbound POST requests in a trace: URL, content type and body. -/
def posts : List Event → List (String × String × String)
  | [] => []
  | .post url ct body :: evs => (url, ct, body) :: posts evs
  | _ :: evs => posts evs

/-- The `Read` calls on the request body in a trace: the buffer lengths. -/
def reads : List Event → List Nat
  | [] => []
  | .bodyRead n :: evs => n :: reads evs
  | _ :: evs => reads evs

/-! ## `encoding/json` on a `SlackMessage` -/

/-- The double quote. -/
def dquote : Char := Char.ofNat 34

/-- The backslash. -/
def bslash : Char := Char.ofNat 92

/-- A lower-case hexadecimal digit. -/
def hexLower (n : Nat) : Char := if n < 10 then Char.ofNat (48 + n) else Char.ofNat (87 + n)

/-- How `encoding/json` writes one character of a string, with HTML escaping
on, as `json.Marshal` has it, and the short forms for backspace and form feed
of Go 1.22 and later. -/
def encodeRune (c : Char) : List Char :=
  let n := c.toNat
  if n = 34 ∨ n = 92 then [bslash, c]
  else if n = 8 then [bslash, 'b']
  else if n = 12 then [bslash, 'f']
  else if n = 10 then [bslash, 'n']
  else if n = 13 then [bslash, 'r']
  else if n = 9 then [bslash, 't']
  else if n < 32 ∨ n = 38 ∨ n = 60 ∨ n = 62 then
    [bslash, 'u', '0', '0', hexLower (n / 16), hexLower (n % 16)]
  else if n = 8232 ∨ n = 8233 then [bslash, 'u', '2', '0', '2', hexLower (n % 16)]
  else [c]

/-- A JSON string literal as `encoding/json` writes it. -/
def encodeString (s : String) : String :=
  String.mk ([dquote] ++ s.toList.flatMap encodeRune ++ [dquote])

/-- A struct field tagged `omitempty`: no member when the value is empty. -/
def omitempty (key value : String) : List (String × String) :=
  if value = "" then [] else [(key, value)]

/-- The members of the JSON object for a `SlackMessage`, from the struct tags
`json:"channel,omitempty"` and so on, in field order. -/
def SlackMessage.members (s : SlackMessage) : List (String × String) :=
  omitempty "channel" s.Channel ++ omitempty "username" s.Username
    ++ omitempty "icon_url" s.IconURL ++ omitempty "icon_emoji" s.IconEmoji
    ++ omitempty "text" s.Text

/-- The text of a JSON object with the given string members. -/
def renderObject (ms : List (String × String)) : String :=
  "\x7b" ++ ",".intercalate (ms.map fun kv => encodeString kv.1 ++ ":" ++ encodeString kv.2)
    ++ "\x7d"

/-- `json.Marshal(s)` for a `*SlackMessage`. -/
def Marshal (s : SlackMessage) : Except GoError String :=
  .ok (renderObject s.members)

/-! ## The functions of `main.go` -/

/-- `NewSNSMessage`: decodes the JSON document of an SNS POST.  The pair is
the Go result `(*SNSMessage, error)`; `none` stands for `nil`. -/
def NewSNSMessage (env : Env) (js : List UInt8) : Option SNSMessage × Option GoError :=
  match env.Unmarshal js with
  | .error err => (none, some err)
  | .ok s =>
    match env.LoadLocation "Local" with
    | .error err => (some s, some err)
    | .ok loc => (some { s with Timestamp := s.Timestamp.In loc }, none)

/-- `(*SNSMessage).ConfirmSubscription`: a GET on `SubscribeURL`; the result
is the calls made and the returned `error`. -/
def SNSMessage.ConfirmSubscription (env : Env) (s : SNSMessage) :
    List Event × Option GoError :=
  match env.Get s.SubscribeURL with
  | .error err => ([.get s.SubscribeURL], some err)
  | .ok _ => ([.get s.SubscribeURL], none)

/-- `(*SNSMessage).String`: `fmt.Sprintf("%s [%s] %s", ...)` of the RFC 3339
timestamp, the subject and the message. -/
def SNSMessage.String (s : SNSMessage) : String :=
  s.Timestamp.FormatRFC3339 ++ " [" ++ s.Subject ++ "] " ++ s.Message

/-- `NewSlackMessage`: the configured channel, user name and icons, and the
given text. -/
def NewSlackMessage (flags : Flags) (text : String) : SlackMessage :=
  { Channel := flags.slackChannel
    Username := flags.slackUsername
    IconURL := flags.slackIconURL
    IconEmoji := flags.slackIconEmoji
    Text := text }

/-- The request body that `PostMessage` builds from the marshalled payload. -/
def postBody (payload : String) : String := "payload=" ++ payload

/-- `(*SlackMessage).PostMessage`: the calls made and the Go result
`(*http.Response, error)`. -/
def SlackMessage.PostMessage (env : Env) (s : SlackMessage) (url : String) :
    List Event × Option HttpResponse × Option GoError :=
  match Marshal s with
  | .error err => ([], none, some err)
  | .ok payload =>
    let body := postBody payload
    match env.Post url "application/x-www-form-urlencoded" body with
    | .error err => ([.post url "application/x-www-form-urlencoded" body], none, some err)
    | .ok resp => ([.post url "application/x-www-form-urlencoded" body], some resp, none)

/-- The buffer `body` of `handler` after the `Read` call: `make` zero-fills
its `n` bytes and `Read` overwrites the front with the bytes it delivers (at
most `n`). -/
def fillBuffer (n : Nat) (delivered : List UInt8) : List UInt8 :=
  delivered.take n ++ List.replicate (n - delivered.length) 0

/-- Lines 134 to 151 of `handler`: decode the buffer and dispatch on the
message type.  `evs` are the calls made so far. -/
def handlerDecoded (env : Env) (evs : List Event) (w : ResponseWriter)
    (body : List UInt8) : Outcome :=
  match NewSNSMessage env body with
  | (_, some err) => .returned evs (httpError w err StatusInternalServerError)
  | (none, none) => .panic evs
  | (some sns, none) =>
    if sns.«Type» = "Notification" then
      let slack := NewSlackMessage env.flags sns.String
      match slack.PostMessage env env.flags.slackWebhook with
      | (calls, _, some err) =>
        .returned (evs ++ calls) (httpError w err StatusInternalServerError)
      | (calls, _, none) => .returned (evs ++ calls) w
    else if sns.«Type» = "SubscriptionConfirmation" then
      match sns.ConfirmSubscription env with
      | (calls, some err) =>
        .returned (evs ++ calls) (httpError w err StatusInternalServerError)
      | (calls, none) => .returned (evs ++ calls) w
    else .returned evs w

/-- The function `handler`.  `make([]byte, r.ContentLength)` panics on a
negative length (the allocation limit of the platform is not modelled);
otherwise the body is read with one `Read` call and, when that reports no
error, the whole buffer is decoded.  The deferred `r.Body.Close()` has no
effect on the response and is left out. -/
def handler (env : Env) (r : Request) : Outcome :=
  let w := ResponseWriter.fresh
  if r.ContentLength < 0 then .panic []
  else
    let n := r.ContentLength.toNat
    let rd := r.Body n
    let body := fillBuffer n rd.1
    match rd.2 with
    | some err => .returned [.bodyRead n] (httpError w err StatusInternalServerError)
    | none => handlerDecoded env [.bodyRead n] w body

/-! ## `application/x-www-form-urlencoded` -/

/-- The UTF-8 bytes of a string. -/
def utf8 (s : String) : List UInt8 := s.toList.flatMap String.utf8EncodeChar

/-- Bytes that `url.QueryEscape` leaves alone: letters, digits and `-_.~`. -/
def unreserved (c : UInt8) : Bool :=
  let n := c.toNat
  (97 ≤ n && n ≤ 122) || (65 ≤ n && n ≤ 90) || (48 ≤ n && n ≤ 57)
    || n = 45 || n = 95 || n = 46 || n = 126

/-- An upper-case hexadecimal digit, as a byte. -/
def hexUpper (n : Nat) : UInt8 := if n < 10 then UInt8.ofNat (48 + n) else UInt8.ofNat (55 + n)

/-- `url.QueryEscape`, on bytes: a space becomes `+`, every other byte
outside the unreserved set becomes `%XX`. -/
def QueryEscape (s : List UInt8) : List UInt8 :=
  s.flatMap fun c =>
    if unreserved c then [c]
    else if c = 32 then [43]
    else [37, hexUpper (c.toNat / 16), hexUpper (c.toNat % 16)]

/-- The value of a hexadecimal digit. -/
def unhex (c : UInt8) : Option Nat :=
  let n := c.toNat
  if 48 ≤ n ∧ n ≤ 57 then some (n - 48)
  else if 97 ≤ n ∧ n ≤ 102 then some (n - 87)
  else if 65 ≤ n ∧ n ≤ 70 then some (n - 55)
  else none

/-- `url.QueryUnescape`, on bytes: `+` becomes a space and `%XX` the byte
`XX`; a `%` not followed by two hexadecimal digits is an error. -/
def QueryUnescape : List UInt8 → Option (List UInt8)
  | [] => some []
  | c :: rest =>
    if c = 37 then
      match rest with
      | h :: l :: rest2 =>
        match unhex h, unhex l with
        | some a, some b => (QueryUnescape rest2).map fun t => UInt8.ofNat (a * 16 + b) :: t
        | _, _ => none
      | _ => none
    else (QueryUnescape rest).map fun t => (if c = 43 then 32 else c) :: t

/-- The decoded value of the first field named `key` in a form-encoded body:
fields are separated by `&`, name and value by the first `=`. -/
def formValue (key : List UInt8) (body : List UInt8) : Option (List UInt8) :=
  (body.splitOn 38).findSome? fun field =>
    let kv := field.span (· ≠ 61)
    if QueryUnescape kv.1 = some key then QueryUnescape (kv.2.drop 1) else none

/-! ## Vocabulary of the statements -/

/-- The content type that `PostMessage` declares. -/
def formContentType : String := "application/x-www-form-urlencoded"

/-- The body is read completely without error: the buffer can be made, and
the one `Read` call delivers `body`, exactly `ContentLength` bytes, and no
error. -/
def Request.readsCompletely (r : Request) (body : List UInt8) : Prop :=
  0 ≤ r.ContentLength ∧ r.Body r.ContentLength.toNat = (body, none)
    ∧ body.length = r.ContentLength.toNat

/-! ## Sample environments and requests -/

/-- The zero value of `SNSMessage`. -/
def SNSMessage.zero : SNSMessage := ⟨"", "", "", "", "", "", "", Time.zero, "", "", "", ""⟩

/-- A notification document. -/
def notificationJSON : String :=
  "\x7b\"Type\":\"Notification\",\"Subject\":\"Alarm\",\"Message\":\"CPU high\",\"Timestamp\":\"2023-01-01T00:00:00Z\"\x7d"

/-- The envelope that `notificationJSON` decodes to. -/
def notificationMessage : SNSMessage :=
  { SNSMessage.zero with
    «Type» := "Notification", Subject := "Alarm", Message := "CPU high"
    Timestamp := ⟨1672531200, 0, UTC⟩ }

/-- A subscription confirmation document. -/
def confirmationJSON : String :=
  "\x7b\"Type\":\"SubscriptionConfirmation\",\"SubscribeURL\":\"http://example.test/confirm?token=abc\"\x7d"

/-- The envelope that `confirmationJSON` decodes to. -/
def confirmationMessage : SNSMessage :=
  { SNSMessage.zero with
    «Type» := "SubscriptionConfirmation"
    SubscribeURL := "http://example.test/confirm?token=abc" }

/-- A document whose type is spelled in lower case. -/
def lowerCaseJSON : String := "\x7b\"Type\":\"notification\",\"Message\":\"x\"\x7d"

/-- The envelope that `lowerCaseJSON` decodes to. -/
def lowerCaseMessage : SNSMessage :=
  { SNSMessage.zero with «Type» := "notification", Message := "x" }

/-- A decoder that knows the sample documents and rejects everything else. -/
def sampleUnmarshal (js : List UInt8) : Except GoError SNSMessage :=
  if js = utf8 notificationJSON then .ok notificationMessage
  else if js = utf8 confirmationJSON then .ok confirmationMessage
  else if js = utf8 lowerCaseJSON then .ok lowerCaseMessage
  else if js = utf8 "\x7b\x7d" then .ok SNSMessage.zero
  else .error "invalid character in JSON input"

/-- An environment in which the local zone is UTC, the time zone database is
absent, and both outbound calls are answered with the given status codes. -/
def sampleEnv (getStatus postStatus : Nat) : Env where
  flags := ⟨":8000", "https://hooks.slack.test/services/T0/B0/X0", "", "", "", ""⟩
  Unmarshal := sampleUnmarshal
  Local := UTC
  loadZone := fun name => .error ("unknown time zone " ++ name)
  Get := fun _ => .ok ⟨getStatus⟩
  Post := fun _ _ _ => .ok ⟨postStatus⟩

/-- The environment `sampleEnv 200 200`, except that the local zone is one
hour east of UTC. -/
def cetEnv : Env :=
  { sampleEnv 200 200 with Local := FixedZone "CET" 3600 }

/-- A request with a declared length whose first `Read` delivers the whole
body and no error. -/
def requestOf (body : String) : Request :=
  ⟨(utf8 body).length, fun n => ((utf8 body).take n, none)⟩

/-- A request with a declared length `extra` bytes above the bytes that the
first `Read` delivers, without error. -/
def shortRead (body : String) (extra : Nat) : Request :=
  ⟨((utf8 body).length + extra : Nat), fun _ => (utf8 body, none)⟩

/-- A request whose first `Read` delivers the whole body together with
`io.EOF`. -/
def requestWithEOF (body : String) : Request :=
  ⟨(utf8 body).length, fun n => ((utf8 body).take n, some "EOF")⟩

/-! ## Traces -/

theorem gets_append (xs ys : List Event) : gets (xs ++ ys) = gets xs ++ gets ys := by
  induction xs with
  | nil => rfl
  | cons e es ih => cases e <;> simp [gets, ih]

theorem posts_append (xs ys : List Event) : posts (xs ++ ys) = posts xs ++ posts ys := by
  induction xs with
  | nil => rfl
  | cons e es ih => cases e <;> simp [posts, ih]

theorem reads_append (xs ys : List Event) : reads (xs ++ ys) = reads xs ++ reads ys := by
  induction xs with
  | nil => rfl
  | cons e es ih => cases e <;> simp [reads, ih]

/-- `json.Marshal` of a `SlackMessage` does not fail. -/
theorem Marshal_ok (s : SlackMessage) : Marshal s = .ok (renderObject s.members) := rfl

/-- The calls of `PostMessage`: one POST of the raw payload to the URL. -/
theorem PostMessage_events (env : Env) (s : SlackMessage) (url : String) :
    (s.PostMessage env url).1 = [.post url formContentType (postBody (renderObject s.members))] := by
  unfold SlackMessage.PostMessage
  simp only [Marshal_ok]
  cases env.Post url "application/x-www-form-urlencoded" (postBody (renderObject s.members)) <;> rfl

/-- The calls of `ConfirmSubscription`: one GET of `SubscribeURL`. -/
theorem ConfirmSubscription_events (env : Env) (s : SNSMessage) :
    (s.ConfirmSubscription env).1 = [.get s.SubscribeURL] := by
  unfold SNSMessage.ConfirmSubscription
  cases env.Get s.SubscribeURL <;> rfl

/-- A handler run on a request with a non-negative length, in terms of the
one `Read` call. -/
theorem handler_of_nonneg (env : Env) (r : Request) (h : 0 ≤ r.ContentLength) :
    handler env r =
      match (r.Body r.ContentLength.toNat).2 with
      | some err =>
        .returned [.bodyRead r.ContentLength.toNat]
          (httpError ResponseWriter.fresh err StatusInternalServerError)
      | none =>
        handlerDecoded env [.bodyRead r.ContentLength.toNat] ResponseWriter.fresh
          (fillBuffer r.ContentLength.toNat (r.Body r.ContentLength.toNat).1) := by
  unfold handler
  simp only [not_lt.mpr h, if_false]

/-- A complete read hands the body itself to the decoder. -/
theorem handler_of_readsCompletely (env : Env) (r : Request) (body : List UInt8)
    (h : r.readsCompletely body) :
    handler env r =
      handlerDecoded env [.bodyRead r.ContentLength.toNat] ResponseWriter.fresh body := by
  obtain ⟨h0, hrd, hlen⟩ := h
  rw [handler_of_nonneg env r h0, hrd]
  simp only [fillBuffer, ← hlen, List.take_length, Nat.sub_self, List.replicate_zero,
    List.append_nil]

/-- The result of `PostMessage` when `http.Post` returns a reply. -/
theorem PostMessage_of_ok (env : Env) (s : SlackMessage) (url : String) (resp : HttpResponse)
    (h : env.Post url formContentType (postBody (renderObject s.members)) = .ok resp) :
    s.PostMessage env url
      = ([.post url formContentType (postBody (renderObject s.members))], some resp, none) := by
  unfold SlackMessage.PostMessage
  simp only [Marshal_ok]
  unfold formContentType at h
  rw [h]
  rfl

/-- The result of `PostMessage` when `http.Post` returns an error. -/
theorem PostMessage_of_error (env : Env) (s : SlackMessage) (url : String) (err : GoError)
    (h : env.Post url formContentType (postBody (renderObject s.members)) = .error err) :
    s.PostMessage env url
      = ([.post url formContentType (postBody (renderObject s.members))], none, some err) := by
  unfold SlackMessage.PostMessage
  simp only [Marshal_ok]
  unfold formContentType at h
  rw [h]
  rfl

/-- The notification branch of the dispatch. -/
theorem handlerDecoded_notification (env : Env) (evs : List Event) (w : ResponseWriter)
    (body : List UInt8) (sns : SNSMessage)
    (hdec : NewSNSMessage env body = (some sns, none)) (htype : sns.«Type» = "Notification") :
    handlerDecoded env evs w body =
      match (NewSlackMessage env.flags sns.String).PostMessage env env.flags.slackWebhook with
      | (calls, _, some err) =>
        .returned (evs ++ calls) (httpError w err StatusInternalServerError)
      | (calls, _, none) => .returned (evs ++ calls) w := by
  unfold handlerDecoded
  rw [hdec]
  simp only [htype, if_true]

/-- The subscription-confirmation branch of the dispatch. -/
theorem handlerDecoded_confirmation (env : Env) (evs : List Event) (w : ResponseWriter)
    (body : List UInt8) (sns : SNSMessage)
    (hdec : NewSNSMessage env body = (some sns, none))
    (htype : sns.«Type» = "SubscriptionConfirmation") :
    handlerDecoded env evs w body =
      match sns.ConfirmSubscription env with
      | (calls, some err) =>
        .returned (evs ++ calls) (httpError w err StatusInternalServerError)
      | (calls, none) => .returned (evs ++ calls) w := by
  unfold handlerDecoded
  rw [hdec]
  have hne : ¬ ("SubscriptionConfirmation" = "Notification") := by decide
  simp only [htype, hne, if_true, if_false]

/-- The default branch of the dispatch. -/
theorem handlerDecoded_other (env : Env) (evs : List Event) (w : ResponseWriter)
    (body : List UInt8) (sns : SNSMessage)
    (hdec : NewSNSMessage env body = (some sns, none))
    (h1 : sns.«Type» ≠ "Notification") (h2 : sns.«Type» ≠ "SubscriptionConfirmation") :
    handlerDecoded env evs w body = .returned evs w := by
  unfold handlerDecoded
  rw [hdec]
  simp only [h1, h2, if_false]

/-- The error branch of the decoding step. -/
theorem handlerDecoded_error (env : Env) (evs : List Event) (w : ResponseWriter)
    (body : List UInt8) (m : Option SNSMessage) (err : GoError)
    (hdec : NewSNSMessage env body = (m, some err)) :
    handlerDecoded env evs w body
      = .returned evs (httpError w err StatusInternalServerError) := by
  unfold handlerDecoded
  rw [hdec]
  cases m <;> rfl

/-- `NewSNSMessage` never returns a nil message with a nil error. -/
theorem NewSNSMessage_not_nil_nil (env : Env) (js : List UInt8) :
    NewSNSMessage env js ≠ (none, none) := by
  unfold NewSNSMessage
  cases env.Unmarshal js with
  | error e => simp
  | ok s => cases env.LoadLocation "Local" <;> simp

/-- A successful `NewSNSMessage` returns what `json.Unmarshal` decoded, with
the timestamp moved to the local zone. -/
theorem NewSNSMessage_ok (env : Env) (js : List UInt8) (sns : SNSMessage)
    (h : NewSNSMessage env js = (some sns, none)) :
    ∃ s0 loc, env.Unmarshal js = .ok s0 ∧ env.LoadLocation "Local" = .ok loc
      ∧ sns = { s0 with Timestamp := s0.Timestamp.In loc } := by
  unfold NewSNSMessage at h
  cases hu : env.Unmarshal js with
  | error e =>
    rw [hu] at h
    cases h
  | ok s0 =>
    rw [hu] at h
    cases hl : env.LoadLocation "Local" with
    | error e =>
      rw [hl] at h
      cases h
    | ok loc =>
      rw [hl] at h
      simp only [Prod.mk.injEq, Option.some.injEq, and_true] at h
      exact ⟨s0, loc, rfl, rfl, h.symm⟩

/-! ## The dispatch -/

/-- Claim C1: a request whose body is read completely without error and
decodes to an envelope of type `Notification`, and whose webhook POST gets a
reply, makes exactly one outbound POST, to the configured webhook URL, and no
GET; the posted payload is the message built from the flags with text
`sns.String()`, which is the RFC 3339 timestamp, a space, the subject in
square brackets, a space and the message; the response status is 200.  The
timestamp is the decoded one, displayed in the local zone; subject and
message are the decoded ones. -/
theorem handler_notification (env : Env) (r : Request) (body : List UInt8) (sns : SNSMessage)
    (resp : HttpResponse)
    (hread : r.readsCompletely body)
    (hdec : NewSNSMessage env body = (some sns, none))
    (htype : sns.«Type» = "Notification")
    (hpost : env.Post env.flags.slackWebhook formContentType
      (postBody (renderObject (NewSlackMessage env.flags sns.String).members)) = .ok resp) :
    posts (handler env r).events
        = [(env.flags.slackWebhook, formContentType,
            postBody (renderObject (NewSlackMessage env.flags sns.String).members))]
      ∧ gets (handler env r).events = []
      ∧ (NewSlackMessage env.flags sns.String).Text = sns.String
      ∧ ("text", sns.String) ∈ (NewSlackMessage env.flags sns.String).members
      ∧ sns.String
          = sns.Timestamp.FormatRFC3339 ++ " [" ++ sns.Subject ++ "] " ++ sns.Message
      ∧ (handler env r).reply = some (200, "")
      ∧ ∃ s0 loc, env.Unmarshal body = .ok s0 ∧ env.LoadLocation "Local" = .ok loc
          ∧ sns.String
              = (s0.Timestamp.In loc).FormatRFC3339 ++ " [" ++ s0.Subject ++ "] "
                  ++ s0.Message := by
  have hrun : handler env r
      = .returned ([.bodyRead r.ContentLength.toNat]
          ++ [.post env.flags.slackWebhook formContentType
                (postBody (renderObject (NewSlackMessage env.flags sns.String).members))])
          ResponseWriter.fresh := by
    rw [handler_of_readsCompletely env r body hread,
      handlerDecoded_notification env _ _ body sns hdec htype,
      PostMessage_of_ok env _ _ resp hpost]
  have hne : sns.String ≠ "" := by
    intro h
    have hlen := congrArg String.length h
    simp only [SNSMessage.String, String.length_append] at hlen
    have h2 : " [".length = 2 := rfl
    have h0 : "".length = 0 := rfl
    omega
  refine ⟨by rw [hrun]; rfl, by rw [hrun]; rfl, rfl, ?_, rfl, by rw [hrun]; rfl, ?_⟩
  · simp [SlackMessage.members, omitempty, NewSlackMessage, hne]
  · obtain ⟨s0, loc, hu, hl, rfl⟩ := NewSNSMessage_ok env body sns hdec
    exact ⟨s0, loc, hu, hl, rfl⟩

/-- Claim C2: a request whose body is read completely without error and
decodes to an envelope of type `SubscriptionConfirmation` makes exactly one
outbound GET, on the `SubscribeURL` that was decoded, and no outbound POST;
when the GET gets a reply the response is status 200 with an empty body. -/
theorem handler_subscription_confirmation (env : Env) (r : Request) (body : List UInt8)
    (sns : SNSMessage)
    (hread : r.readsCompletely body)
    (hdec : NewSNSMessage env body = (some sns, none))
    (htype : sns.«Type» = "SubscriptionConfirmation") :
    gets (handler env r).events = [sns.SubscribeURL]
      ∧ posts (handler env r).events = []
      ∧ (∀ resp, env.Get sns.SubscribeURL = .ok resp →
          (handler env r).reply = some (200, ""))
      ∧ ∃ s0, env.Unmarshal body = .ok s0 ∧ sns.SubscribeURL = s0.SubscribeURL := by
  have hrun := handlerDecoded_confirmation env [.bodyRead r.ContentLength.toNat]
    ResponseWriter.fresh body sns hdec htype
  rw [← handler_of_readsCompletely env r body hread] at hrun
  unfold SNSMessage.ConfirmSubscription at hrun
  have hsame : ∃ s0, env.Unmarshal body = .ok s0 ∧ sns.SubscribeURL = s0.SubscribeURL := by
    obtain ⟨s0, loc, hu, _, rfl⟩ := NewSNSMessage_ok env body sns hdec
    exact ⟨s0, hu, rfl⟩
  cases hget : env.Get sns.SubscribeURL with
  | error e =>
    rw [hget] at hrun
    refine ⟨by rw [hrun]; rfl, by rw [hrun]; rfl, ?_, hsame⟩
    intro resp h
    cases h
  | ok a =>
    rw [hget] at hrun
    exact ⟨by rw [hrun]; rfl, by rw [hrun]; rfl, fun _ _ => by rw [hrun]; rfl, hsame⟩

/-- Claim C3: a request whose body is read completely without error and
decodes to an envelope whose type is neither `Notification` nor
`SubscriptionConfirmation` makes no outbound call, neither GET nor POST, and
is answered with status 200 and an empty body. -/
theorem handler_other_type (env : Env) (r : Request) (body : List UInt8) (sns : SNSMessage)
    (hread : r.readsCompletely body)
    (hdec : NewSNSMessage env body = (some sns, none))
    (h1 : sns.«Type» ≠ "Notification") (h2 : sns.«Type» ≠ "SubscriptionConfirmation") :
    gets (handler env r).events = []
      ∧ posts (handler env r).events = []
      ∧ (handler env r).reply = some (200, "") := by
  rw [handler_of_readsCompletely env r body hread,
    handlerDecoded_other env _ _ body sns hdec h1 h2]
  exact ⟨rfl, rfl, rfl⟩

/-- Witness for C1: the notification document of the specification, read
completely, with local zone UTC: one POST with text
`2023-01-01T00:00:00Z [Alarm] CPU high`, no GET, status 200. -/
theorem handler_notification_witness :
    (requestOf notificationJSON).readsCompletely (utf8 notificationJSON)
      ∧ notificationMessage.«Type» = "Notification"
      ∧ posts (handler (sampleEnv 200 200) (requestOf notificationJSON)).events
          = [("https://hooks.slack.test/services/T0/B0/X0", "application/x-www-form-urlencoded",
              "payload=\x7b\"text\":\"2023-01-01T00:00:00Z [Alarm] CPU high\"\x7d")]
      ∧ gets (handler (sampleEnv 200 200) (requestOf notificationJSON)).events = []
      ∧ ("text", "2023-01-01T00:00:00Z [Alarm] CPU high")
          ∈ (NewSlackMessage (sampleEnv 200 200).flags notificationMessage.String).members
      ∧ (handler (sampleEnv 200 200) (requestOf notificationJSON)).reply = some (200, "") := by
  have hread : (requestOf notificationJSON).readsCompletely (utf8 notificationJSON) :=
    ⟨by decide, by decide, by decide⟩
  have hdec : NewSNSMessage (sampleEnv 200 200) (utf8 notificationJSON)
      = (some notificationMessage, none) := by rfl
  have h := handler_notification (sampleEnv 200 200) (requestOf notificationJSON)
    (utf8 notificationJSON) notificationMessage ⟨200⟩ hread hdec rfl rfl
  exact ⟨hread, rfl, h.1, h.2.1, h.2.2.2.1, h.2.2.2.2.2.1⟩

/-- Witness for C2: the confirmation document of the specification, read
completely: one GET on its `SubscribeURL`, no POST, status 200. -/
theorem handler_subscription_confirmation_witness :
    (requestOf confirmationJSON).readsCompletely (utf8 confirmationJSON)
      ∧ confirmationMessage.«Type» = "SubscriptionConfirmation"
      ∧ gets (handler (sampleEnv 200 200) (requestOf confirmationJSON)).events
          = ["http://example.test/confirm?token=abc"]
      ∧ posts (handler (sampleEnv 200 200) (requestOf confirmationJSON)).events = []
      ∧ (handler (sampleEnv 200 200) (requestOf confirmationJSON)).reply = some (200, "") := by
  have hread : (requestOf confirmationJSON).readsCompletely (utf8 confirmationJSON) :=
    ⟨by decide, by decide, by decide⟩
  have hdec : NewSNSMessage (sampleEnv 200 200) (utf8 confirmationJSON)
      = (some confirmationMessage, none) := by rfl
  have h := handler_subscription_confirmation (sampleEnv 200 200) (requestOf confirmationJSON)
    (utf8 confirmationJSON) confirmationMessage hread hdec rfl
  exact ⟨hread, rfl, h.1, h.2.1, h.2.2.1 ⟨200⟩ rfl⟩

/-- Witness for C3: a document whose type is spelled `notification`, read
completely: no outbound call, status 200. -/
theorem handler_other_type_witness :
    (requestOf lowerCaseJSON).readsCompletely (utf8 lowerCaseJSON)
      ∧ lowerCaseMessage.«Type» ≠ "Notification"
      ∧ lowerCaseMessage.«Type» ≠ "SubscriptionConfirmation"
      ∧ gets (handler (sampleEnv 200 200) (requestOf lowerCaseJSON)).events = []
      ∧ posts (handler (sampleEnv 200 200) (requestOf lowerCaseJSON)).events = []
      ∧ (handler (sampleEnv 200 200) (requestOf lowerCaseJSON)).reply = some (200, "") := by
  have hread : (requestOf lowerCaseJSON).readsCompletely (utf8 lowerCaseJSON) :=
    ⟨by decide, by decide, by decide⟩
  have hdec : NewSNSMessage (sampleEnv 200 200) (utf8 lowerCaseJSON)
      = (some lowerCaseMessage, none) := by rfl
  have h1 : lowerCaseMessage.«Type» ≠ "Notification" := by decide
  have h2 : lowerCaseMessage.«Type» ≠ "SubscriptionConfirmation" := by decide
  exact ⟨hread, h1, h2,
    handler_other_type (sampleEnv 200 200) (requestOf lowerCaseJSON) (utf8 lowerCaseJSON)
      lowerCaseMessage hread hdec h1 h2⟩

/-! ## Failures -/

/-- The reply that `http.Error` leaves on a fresh writer. -/
theorem reply_httpError (evs : List Event) (err : GoError) :
    (Outcome.returned evs
        (httpError ResponseWriter.fresh err StatusInternalServerError)).reply
      = some (500, err ++ "\n") := by
  simp [Outcome.reply, httpError, ResponseWriter.fresh, ResponseWriter.status,
    StatusInternalServerError]

/-- The body that `http.Error` writes is never empty. -/
theorem error_body_ne_empty (err : GoError) : err ++ "\n" ≠ "" := by
  intro h
  have hlen := congrArg String.length h
  simp only [String.length_append] at hlen
  have h1 : "\n".length = 1 := rfl
  have h0 : "".length = 0 := rfl
  omega

/-- Claim C4: when the JSON decoder rejects the bytes, `NewSNSMessage`
returns nil and the error; and a handler run whose buffer holds those bytes
answers with status 500 and a non-empty body and makes no outbound call,
neither GET nor POST. -/
theorem handler_malformed_json (env : Env) (js : List UInt8) (err : GoError)
    (hjs : env.Unmarshal js = .error err) :
    NewSNSMessage env js = (none, some err)
      ∧ ∀ r : Request, 0 ≤ r.ContentLength →
          fillBuffer r.ContentLength.toNat (r.Body r.ContentLength.toNat).1 = js →
          ∃ text, (handler env r).reply = some (500, text) ∧ text ≠ ""
            ∧ gets (handler env r).events = [] ∧ posts (handler env r).events = [] := by
  have hnew : NewSNSMessage env js = (none, some err) := by
    unfold NewSNSMessage
    rw [hjs]
  refine ⟨hnew, ?_⟩
  intro r h0 hbuf
  rw [handler_of_nonneg env r h0, hbuf]
  cases (r.Body r.ContentLength.toNat).2 with
  | some e => exact ⟨e ++ "\n", reply_httpError _ e, error_body_ne_empty e, rfl, rfl⟩
  | none =>
    simp only []
    rw [handlerDecoded_error env _ _ js none err hnew]
    exact ⟨err ++ "\n", reply_httpError _ err, error_body_ne_empty err, rfl, rfl⟩

/-- Witness for C4: the body `not json`. -/
theorem handler_malformed_json_witness :
    (sampleEnv 200 200).Unmarshal (utf8 "not json") = .error "invalid character in JSON input"
      ∧ NewSNSMessage (sampleEnv 200 200) (utf8 "not json")
          = (none, some "invalid character in JSON input")
      ∧ ∃ text, (handler (sampleEnv 200 200) (requestOf "not json")).reply = some (500, text)
          ∧ text ≠ ""
          ∧ gets (handler (sampleEnv 200 200) (requestOf "not json")).events = []
          ∧ posts (handler (sampleEnv 200 200) (requestOf "not json")).events = [] := by
  have hjs : (sampleEnv 200 200).Unmarshal (utf8 "not json")
      = .error "invalid character in JSON input" := by rfl
  have h := handler_malformed_json (sampleEnv 200 200) (utf8 "not json")
    "invalid character in JSON input" hjs
  exact ⟨hjs, h.1, h.2 (requestOf "not json") (by decide) (by decide)⟩

/-- The decoding step adds no `Read` call. -/
theorem reads_handlerDecoded (env : Env) (evs : List Event) (w : ResponseWriter)
    (body : List UInt8) : reads (handlerDecoded env evs w body).events = reads evs := by
  rcases hdec : NewSNSMessage env body with ⟨m, e⟩
  cases e with
  | some err => rw [handlerDecoded_error env evs w body m err hdec]; rfl
  | none =>
    cases m with
    | none => exact absurd hdec (NewSNSMessage_not_nil_nil env body)
    | some sns =>
      by_cases h1 : sns.«Type» = "Notification"
      · rw [handlerDecoded_notification env evs w body sns hdec h1]
        have hev := PostMessage_events env (NewSlackMessage env.flags sns.String)
          env.flags.slackWebhook
        rcases hp : (NewSlackMessage env.flags sns.String).PostMessage env
          env.flags.slackWebhook with ⟨calls, resp, e⟩
        rw [hp] at hev
        simp only at hev
        cases e <;> simp [Outcome.events, reads_append, hev, reads]
      · by_cases h2 : sns.«Type» = "SubscriptionConfirmation"
        · rw [handlerDecoded_confirmation env evs w body sns hdec h2]
          have hev := ConfirmSubscription_events env sns
          rcases hp : sns.ConfirmSubscription env with ⟨calls, e⟩
          rw [hp] at hev
          simp only at hev
          cases e <;> simp [Outcome.events, reads_append, hev, reads]
        · rw [handlerDecoded_other env evs w body sns hdec h1 h2]
          rfl

/-- The decoding step does not panic: it leaves status 200 and an empty body,
or status 500 and the text of an error followed by a newline. -/
theorem reply_handlerDecoded (env : Env) (evs : List Event) (body : List UInt8) :
    (handlerDecoded env evs ResponseWriter.fresh body).reply = some (200, "")
      ∨ ∃ err, (handlerDecoded env evs ResponseWriter.fresh body).reply
          = some (500, err ++ "\n") := by
  rcases hdec : NewSNSMessage env body with ⟨m, e⟩
  cases e with
  | some err =>
    rw [handlerDecoded_error env evs _ body m err hdec]
    exact Or.inr ⟨err, reply_httpError _ err⟩
  | none =>
    cases m with
    | none => exact absurd hdec (NewSNSMessage_not_nil_nil env body)
    | some sns =>
      by_cases h1 : sns.«Type» = "Notification"
      · rw [handlerDecoded_notification env evs _ body sns hdec h1]
        rcases (NewSlackMessage env.flags sns.String).PostMessage env
          env.flags.slackWebhook with ⟨calls, resp, e⟩
        cases e with
        | none => exact Or.inl rfl
        | some err => exact Or.inr ⟨err, reply_httpError _ err⟩
      · by_cases h2 : sns.«Type» = "SubscriptionConfirmation"
        · rw [handlerDecoded_confirmation env evs _ body sns hdec h2]
          rcases sns.ConfirmSubscription env with ⟨calls, e⟩
          cases e with
          | none => exact Or.inl rfl
          | some err => exact Or.inr ⟨err, reply_httpError _ err⟩
        · rw [handlerDecoded_other env evs _ body sns hdec h1 h2]
          exact Or.inl rfl

/-- On a request with a non-negative declared length `handler` returns, with
status 200 and an empty body, or with status 500 and the text of an error
followed by a newline. -/
theorem handler_reply_of_nonneg (env : Env) (r : Request) (h : 0 ≤ r.ContentLength) :
    (handler env r).reply = some (200, "")
      ∨ ∃ err, (handler env r).reply = some (500, err ++ "\n") := by
  rw [handler_of_nonneg env r h]
  cases (r.Body r.ContentLength.toNat).2 with
  | some err => exact Or.inr ⟨err, reply_httpError _ err⟩
  | none => exact reply_handlerDecoded env _ _

/-- Claim C10: on a request with a non-negative declared length, `handler`
makes exactly one `Read` call, on a buffer of `ContentLength` bytes; when
that call returns an error, whatever bytes it delivered, the answer is status
500 and no outbound call is made; when it returns no error and fewer bytes
than `ContentLength`, the bytes handed to `NewSNSMessage` are the delivered
ones followed by the zero bytes of the rest of the buffer. -/
theorem handler_single_read (env : Env) (r : Request) (hlen : 0 ≤ r.ContentLength) :
    reads (handler env r).events = [r.ContentLength.toNat]
      ∧ (∀ data err, r.Body r.ContentLength.toNat = (data, some err) →
          (handler env r).reply = some (500, err ++ "\n")
            ∧ gets (handler env r).events = [] ∧ posts (handler env r).events = [])
      ∧ (∀ data, r.Body r.ContentLength.toNat = (data, none) →
          data.length < r.ContentLength.toNat →
          handler env r
            = handlerDecoded env [.bodyRead r.ContentLength.toNat] ResponseWriter.fresh
                (data ++ List.replicate (r.ContentLength.toNat - data.length) 0)) := by
  refine ⟨?_, ?_, ?_⟩
  · rw [handler_of_nonneg env r hlen]
    cases (r.Body r.ContentLength.toNat).2 with
    | some err => rfl
    | none => exact reads_handlerDecoded env _ _ _
  · intro data err hrd
    rw [handler_of_nonneg env r hlen, hrd]
    exact ⟨reply_httpError _ err, rfl, rfl⟩
  · intro data hrd hshort
    rw [handler_of_nonneg env r hlen, hrd]
    simp only [fillBuffer, List.take_of_length_le (Nat.le_of_lt hshort)]

/-- Witness for C10: the notification document delivered together with
`io.EOF` is answered with status 500 and forwarded nowhere; delivered without
error but three bytes short of the declared length, it reaches the decoder
with three zero bytes appended and is rejected. -/
theorem handler_single_read_witness :
    reads (handler (sampleEnv 200 200) (requestWithEOF notificationJSON)).events
        = [(utf8 notificationJSON).length]
      ∧ (handler (sampleEnv 200 200) (requestWithEOF notificationJSON)).reply
          = some (500, "EOF\n")
      ∧ posts (handler (sampleEnv 200 200) (requestWithEOF notificationJSON)).events = []
      ∧ handler (sampleEnv 200 200) (shortRead notificationJSON 3)
          = handlerDecoded (sampleEnv 200 200) [.bodyRead ((utf8 notificationJSON).length + 3)]
              ResponseWriter.fresh (utf8 notificationJSON ++ [0, 0, 0])
      ∧ (handler (sampleEnv 200 200) (shortRead notificationJSON 3)).reply
          = some (500, "invalid character in JSON input\n") := by
  have h := handler_single_read (sampleEnv 200 200) (requestWithEOF notificationJSON)
    (by decide)
  have hs := handler_single_read (sampleEnv 200 200) (shortRead notificationJSON 3)
    (by decide)
  have h1 := h.2.1 (utf8 notificationJSON) "EOF" (by decide)
  exact ⟨h.1, h1.1, h1.2.2, hs.2.2 (utf8 notificationJSON) (by decide) (by decide), by decide⟩

/-- Claim C7: `PostMessage` returns an error exactly when JSON serialisation
or `http.Post` returns one, and `ConfirmSubscription` exactly when `http.Get`
returns one; whatever the status code of a reply, neither returns an error,
and `handler` then answers with status 200. -/
theorem outbound_error_iff_transport_error (env : Env) :
    (∀ (s : SlackMessage) (url : String),
        (s.PostMessage env url).2.2 ≠ none ↔
          ((∃ e, Marshal s = .error e) ∨
            ∃ payload e, Marshal s = .ok payload
              ∧ env.Post url formContentType (postBody payload) = .error e))
      ∧ (∀ sns : SNSMessage,
          (sns.ConfirmSubscription env).2 ≠ none ↔ ∃ e, env.Get sns.SubscribeURL = .error e)
      ∧ (∀ (s : SlackMessage) (url : String) (code : Nat),
          env.Post url formContentType (postBody (renderObject s.members)) = .ok ⟨code⟩ →
          (s.PostMessage env url).2.2 = none)
      ∧ (∀ (sns : SNSMessage) (code : Nat),
          env.Get sns.SubscribeURL = .ok ⟨code⟩ → (sns.ConfirmSubscription env).2 = none)
      ∧ (∀ (r : Request) (body : List UInt8) (sns : SNSMessage) (code : Nat),
          r.readsCompletely body → NewSNSMessage env body = (some sns, none) →
          sns.«Type» = "Notification" →
          env.Post env.flags.slackWebhook formContentType
            (postBody (renderObject (NewSlackMessage env.flags sns.String).members))
              = .ok ⟨code⟩ →
          (handler env r).reply = some (200, ""))
      ∧ (∀ (r : Request) (body : List UInt8) (sns : SNSMessage) (code : Nat),
          r.readsCompletely body → NewSNSMessage env body = (some sns, none) →
          sns.«Type» = "SubscriptionConfirmation" →
          env.Get sns.SubscribeURL = .ok ⟨code⟩ →
          (handler env r).reply = some (200, "")) := by
  refine ⟨?_, ?_, ?_, ?_, ?_, ?_⟩
  · intro s url
    cases hp : env.Post url formContentType (postBody (renderObject s.members)) with
    | error e =>
      rw [PostMessage_of_error env s url e hp]
      constructor
      · intro _
        exact Or.inr ⟨renderObject s.members, e, rfl, hp⟩
      · intro _ h
        cases h
    | ok resp =>
      rw [PostMessage_of_ok env s url resp hp]
      constructor
      · intro h
        exact absurd rfl h
      · rintro (⟨e, h⟩ | ⟨payload, e, hm, hpe⟩)
        · rw [Marshal_ok] at h
          cases h
        · rw [Marshal_ok] at hm
          cases hm
          rw [hp] at hpe
          cases hpe
  · intro sns
    unfold SNSMessage.ConfirmSubscription
    cases env.Get sns.SubscribeURL with
    | error e => simp
    | ok resp => simp
  · intro s url code hp
    rw [PostMessage_of_ok env s url ⟨code⟩ hp]
  · intro sns code hg
    unfold SNSMessage.ConfirmSubscription
    rw [hg]
  · intro r body sns code hread hdec htype hp
    rw [handler_of_readsCompletely env r body hread,
      handlerDecoded_notification env _ _ body sns hdec htype,
      PostMessage_of_ok env _ _ ⟨code⟩ hp]
    rfl
  · intro r body sns code hread hdec htype hg
    rw [handler_of_readsCompletely env r body hread,
      handlerDecoded_confirmation env _ _ body sns hdec htype]
    unfold SNSMessage.ConfirmSubscription
    rw [hg]
    rfl

/-- Witness for C7: a webhook that replies 500 and a confirmation URL that
replies 404: no error is returned and the SNS caller gets status 200. -/
theorem outbound_error_iff_transport_error_witness :
    (requestOf notificationJSON).readsCompletely (utf8 notificationJSON)
      ∧ (sampleEnv 404 500).Post (sampleEnv 404 500).flags.slackWebhook formContentType
          (postBody (renderObject
            (NewSlackMessage (sampleEnv 404 500).flags notificationMessage.String).members))
          = .ok ⟨500⟩
      ∧ ((NewSlackMessage (sampleEnv 404 500).flags notificationMessage.String).PostMessage
          (sampleEnv 404 500) (sampleEnv 404 500).flags.slackWebhook).2.2 = none
      ∧ (handler (sampleEnv 404 500) (requestOf notificationJSON)).reply = some (200, "")
      ∧ (sampleEnv 404 500).Get confirmationMessage.SubscribeURL = .ok ⟨404⟩
      ∧ (confirmationMessage.ConfirmSubscription (sampleEnv 404 500)).2 = none
      ∧ (handler (sampleEnv 404 500) (requestOf confirmationJSON)).reply = some (200, "") := by
  have h := outbound_error_iff_transport_error (sampleEnv 404 500)
  have hr1 : (requestOf notificationJSON).readsCompletely (utf8 notificationJSON) :=
    ⟨by decide, by decide, by decide⟩
  have hr2 : (requestOf confirmationJSON).readsCompletely (utf8 confirmationJSON) :=
    ⟨by decide, by decide, by decide⟩
  exact ⟨hr1, rfl, h.2.2.1 _ _ 500 rfl,
    h.2.2.2.2.1 _ _ notificationMessage 500 hr1 (by rfl) rfl rfl, rfl,
    h.2.2.2.1 confirmationMessage 404 rfl,
    h.2.2.2.2.2 _ _ confirmationMessage 404 hr2 (by rfl) rfl rfl⟩

/-! ## The outbound payload -/

/-- Claim C6: in the JSON object that `json.Marshal` writes for
`NewSlackMessage(text)`, each of the members `channel`, `username`,
`icon_url` and `icon_emoji` is present exactly when the corresponding flag is
non-empty, and its value is then the flag; no member has the empty string as
its value. -/
theorem NewSlackMessage_optional_members (flags : Flags) (text : String) :
    Marshal (NewSlackMessage flags text)
        = .ok (renderObject (NewSlackMessage flags text).members)
      ∧ (∀ v, ("channel", v) ∈ (NewSlackMessage flags text).members ↔
          (flags.slackChannel ≠ "" ∧ v = flags.slackChannel))
      ∧ (∀ v, ("username", v) ∈ (NewSlackMessage flags text).members ↔
          (flags.slackUsername ≠ "" ∧ v = flags.slackUsername))
      ∧ (∀ v, ("icon_url", v) ∈ (NewSlackMessage flags text).members ↔
          (flags.slackIconURL ≠ "" ∧ v = flags.slackIconURL))
      ∧ (∀ v, ("icon_emoji", v) ∈ (NewSlackMessage flags text).members ↔
          (flags.slackIconEmoji ≠ "" ∧ v = flags.slackIconEmoji))
      ∧ (∀ k v, (k, v) ∈ (NewSlackMessage flags text).members → v ≠ "") := by
  have hmem : ∀ (k key value v : String),
      (k, v) ∈ omitempty key value ↔ (k = key ∧ value ≠ "" ∧ v = value) := by
    intro k key value v
    unfold omitempty
    by_cases h : value = ""
    · simp [h]
    · simp [h]
  refine ⟨rfl, ?_, ?_, ?_, ?_, ?_⟩
  · intro v
    simp +decide [SlackMessage.members, NewSlackMessage, hmem]
  · intro v
    simp +decide [SlackMessage.members, NewSlackMessage, hmem]
  · intro v
    simp +decide [SlackMessage.members, NewSlackMessage, hmem]
  · intro v
    simp +decide [SlackMessage.members, NewSlackMessage, hmem]
  · intro k v
    simp only [SlackMessage.members, NewSlackMessage, List.mem_append, hmem]
    rintro ((((⟨_, h, rfl⟩ | ⟨_, h, rfl⟩) | ⟨_, h, rfl⟩) | ⟨_, h, rfl⟩) | ⟨_, h, rfl⟩) <;>
      exact h

/-- Witness for C6: with only the channel and the emoji configured, the
object has the members `channel`, `icon_emoji` and `text`, and neither
`username` nor `icon_url`. -/
theorem NewSlackMessage_optional_members_witness :
    Marshal (NewSlackMessage ⟨":8000", "https://hooks.slack.test/x", "#ops", "", "", ":bell:"⟩
        "hi")
        = .ok "\x7b\"channel\":\"#ops\",\"icon_emoji\":\":bell:\",\"text\":\"hi\"\x7d"
      ∧ ("channel", "#ops")
          ∈ (NewSlackMessage ⟨":8000", "https://hooks.slack.test/x", "#ops", "", "", ":bell:"⟩
              "hi").members
      ∧ ∀ v, ("username", v)
          ∉ (NewSlackMessage ⟨":8000", "https://hooks.slack.test/x", "#ops", "", "", ":bell:"⟩
              "hi").members := by
  have h := NewSlackMessage_optional_members
    ⟨":8000", "https://hooks.slack.test/x", "#ops", "", "", ":bell:"⟩ "hi"
  refine ⟨h.1, (h.2.1 "#ops").mpr ⟨by decide, rfl⟩, ?_⟩
  intro v hv
  exact ((h.2.2.1 v).mp hv).1 rfl

/-- The object written for a message with a channel and an emoji. -/
theorem Marshal_sample :
    Marshal ⟨"#ops", "", "", ":bell:", "disk <90%> \"full\""⟩
      = .ok "\x7b\"channel\":\"#ops\",\"icon_emoji\":\":bell:\",\"text\":\"disk \\u003c90%\\u003e \\\"full\\\"\"\x7d" := by
  rfl

/-- Decoding undoes `QueryEscape` on every hexadecimal digit. -/
theorem unhex_hexUpper : ∀ k, k < 16 → unhex (hexUpper k) = some k := by decide

/-- An unreserved byte is neither `%` nor `+`. -/
theorem unreserved_plain (c : UInt8) (h : unreserved c = true) : c ≠ 37 ∧ c ≠ 43 := by
  constructor
  · rintro rfl
    revert h
    decide
  · rintro rfl
    revert h
    decide

/-- A byte is the byte of its own value. -/
theorem byte_ofNat_toNat (c : UInt8) : UInt8.ofNat c.toNat = c := by
  apply UInt8.eq_of_toBitVec_eq
  simp [UInt8.ofNat, UInt8.toNat]

/-- Decoding a byte other than `%`. -/
theorem QueryUnescape_plain (c : UInt8) (rest : List UInt8) (h : c ≠ 37) :
    QueryUnescape (c :: rest)
      = (QueryUnescape rest).map fun t => (if c = 43 then 32 else c) :: t := by
  conv_lhs => unfold QueryUnescape
  rw [if_neg h]

/-- Decoding a `%` followed by two bytes. -/
theorem QueryUnescape_percent (h l : UInt8) (rest : List UInt8) :
    QueryUnescape (37 :: h :: l :: rest)
      = match unhex h, unhex l with
        | some a, some b => (QueryUnescape rest).map fun t => UInt8.ofNat (a * 16 + b) :: t
        | _, _ => none := by
  conv_lhs => unfold QueryUnescape
  rw [if_pos rfl]

/-- Form decoding undoes `url.QueryEscape`. -/
theorem QueryUnescape_QueryEscape (s : List UInt8) : QueryUnescape (QueryEscape s) = some s := by
  induction s with
  | nil => rfl
  | cons c cs ih =>
    have hcons : QueryEscape (c :: cs)
        = (if unreserved c = true then [c]
           else if c = 32 then [43]
           else [37, hexUpper (c.toNat / 16), hexUpper (c.toNat % 16)]) ++ QueryEscape cs := by
      simp [QueryEscape, List.flatMap_cons]
    rw [hcons]
    by_cases hu : unreserved c = true
    · obtain ⟨h37, h43⟩ := unreserved_plain c hu
      rw [if_pos hu, List.singleton_append, QueryUnescape_plain c _ h37, ih, if_neg h43]
      rfl
    · by_cases hsp : c = 32
      · rw [if_neg hu, if_pos hsp, List.singleton_append,
          QueryUnescape_plain 43 _ (by decide), ih, hsp]
        rfl
      · have hlt : c.toNat < 256 := UInt8.toNat_lt_size c
        have h1 := unhex_hexUpper (c.toNat / 16) (by omega)
        have h2 := unhex_hexUpper (c.toNat % 16) (by omega)
        have hback : UInt8.ofNat (c.toNat / 16 * 16 + c.toNat % 16) = c := by
          rw [Nat.div_add_mod']
          exact byte_ofNat_toNat c
        rw [if_neg hu, if_neg hsp]
        simp only [List.cons_append, List.nil_append]
        rw [QueryUnescape_percent, h1, h2, ih]
        simp only [Option.map_some', hback]

set_option maxRecDepth 20000 in
/-- Claim C5, evaluated on a notification formatted one hour east of UTC: the
body that `handler` posts is `payload=` followed by the JSON text itself, not
by its URL encoding; form decoding turns the `+` of the zone offset into a
space, so the receiver does not get the JSON serialisation back, while it
would from the URL-encoded body. -/
theorem PostMessage_body_not_url_encoded :
    Marshal ⟨"", "", "", "", "2023-01-01T01:00:00+01:00 [Alarm] CPU high"⟩
        = .ok "\x7b\"text\":\"2023-01-01T01:00:00+01:00 [Alarm] CPU high\"\x7d"
      ∧ posts (handler cetEnv (requestOf notificationJSON)).events
          = [("https://hooks.slack.test/services/T0/B0/X0", "application/x-www-form-urlencoded",
              "payload=\x7b\"text\":\"2023-01-01T01:00:00+01:00 [Alarm] CPU high\"\x7d")]
      ∧ utf8 "payload=\x7b\"text\":\"2023-01-01T01:00:00+01:00 [Alarm] CPU high\"\x7d"
          ≠ utf8 "payload="
              ++ QueryEscape
                (utf8 "\x7b\"text\":\"2023-01-01T01:00:00+01:00 [Alarm] CPU high\"\x7d")
      ∧ formValue (utf8 "payload")
          (utf8 "payload=\x7b\"text\":\"2023-01-01T01:00:00+01:00 [Alarm] CPU high\"\x7d")
          = some (utf8 "\x7b\"text\":\"2023-01-01T01:00:00 01:00 [Alarm] CPU high\"\x7d")
      ∧ formValue (utf8 "payload")
          (utf8 "payload="
            ++ QueryEscape
              (utf8 "\x7b\"text\":\"2023-01-01T01:00:00+01:00 [Alarm] CPU high\"\x7d"))
          = some (utf8 "\x7b\"text\":\"2023-01-01T01:00:00+01:00 [Alarm] CPU high\"\x7d") := by
  refine ⟨by rfl, by decide, by decide, by decide, by decide⟩

/-- Loading the location named `Local` returns `time.Local` and no error. -/
theorem LoadLocation_Local (env : Env) : env.LoadLocation "Local" = .ok env.Local := by
  unfold Env.LoadLocation
  have h1 : ¬ ("Local" = "" ∨ "Local" = "UTC") := by decide
  rw [if_neg h1, if_pos rfl]

/-- Claim C8: for every byte input `NewSNSMessage` returns either an
initialised message (what `json.Unmarshal` decoded, with the timestamp in the
local zone) and a nil error, or a nil message and the error of
`json.Unmarshal`; whenever the returned error is non-nil the returned message
is nil.  The lookup of the location named `Local` returns no error, so the
branch for its failure is never taken. -/
theorem NewSNSMessage_nil_on_error (env : Env) (js : List UInt8) :
    (∀ err, env.Unmarshal js = .error err → NewSNSMessage env js = (none, some err))
      ∧ (∀ s, env.Unmarshal js = .ok s →
          NewSNSMessage env js
            = (some { s with Timestamp := s.Timestamp.In env.Local }, none))
      ∧ ((∃ sns, NewSNSMessage env js = (some sns, none))
          ∨ ∃ err, NewSNSMessage env js = (none, some err))
      ∧ ((NewSNSMessage env js).2 ≠ none → (NewSNSMessage env js).1 = none) := by
  have herr : ∀ err, env.Unmarshal js = .error err →
      NewSNSMessage env js = (none, some err) := by
    intro err hu
    unfold NewSNSMessage
    rw [hu]
  have hok : ∀ s, env.Unmarshal js = .ok s →
      NewSNSMessage env js
        = (some { s with Timestamp := s.Timestamp.In env.Local }, none) := by
    intro s hu
    unfold NewSNSMessage
    rw [hu]
    simp only [LoadLocation_Local]
  refine ⟨herr, hok, ?_, ?_⟩
  · cases hu : env.Unmarshal js with
    | error err => exact Or.inr ⟨err, herr err hu⟩
    | ok s => exact Or.inl ⟨_, hok s hu⟩
  · cases hu : env.Unmarshal js with
    | error err =>
      rw [herr err hu]
      intro _
      rfl
    | ok s =>
      rw [hok s hu]
      intro h
      exact absurd rfl h

/-- Witness for C8: the bytes `not json` give a nil message with the
decoder's error, and the empty object gives a message and a nil error. -/
theorem NewSNSMessage_nil_on_error_witness :
    (NewSNSMessage (sampleEnv 200 200) (utf8 "not json")).2 ≠ none
      ∧ (NewSNSMessage (sampleEnv 200 200) (utf8 "not json")).1 = none
      ∧ NewSNSMessage (sampleEnv 200 200) (utf8 "not json")
          = (none, some "invalid character in JSON input")
      ∧ ((∃ sns, NewSNSMessage (sampleEnv 200 200) (utf8 "\x7b\x7d") = (some sns, none))
          ∨ ∃ err, NewSNSMessage (sampleEnv 200 200) (utf8 "\x7b\x7d") = (none, some err)) := by
  have h := NewSNSMessage_nil_on_error (sampleEnv 200 200) (utf8 "not json")
  have h2 := NewSNSMessage_nil_on_error (sampleEnv 200 200) (utf8 "\x7b\x7d")
  have hne : (NewSNSMessage (sampleEnv 200 200) (utf8 "not json")).2 ≠ none := by
    rw [h.1 "invalid character in JSON input" (by rfl)]
    exact fun hh => by cases hh
  exact ⟨hne, h.2.2.2 hne, h.1 "invalid character in JSON input" (by rfl), h2.2.2.1⟩

/-! ## Defects -/

/-- Claim C9, evaluated on a request of unknown length: with
`ContentLength = -1` the allocation of the buffer panics, whatever the
environment and the body, and no response is produced. -/
theorem handler_panics_on_unknown_length (env : Env)
    (body : Nat → List UInt8 × Option GoError) :
    handler env ⟨-1, body⟩ = .panic [] ∧ (handler env ⟨-1, body⟩).reply = none := by
  constructor <;> rfl

end SnsSlack
